import Mathlib

/-!
Shallow embedding of the episode-resolution and state-reconciliation core of
the mpv-anilist-updater repository (src/python/): the transport retry loop
(api_client.py, APIClient.make_api_request), the list-state reconciler
(updater.py, AniListUpdater.update_episode_count), the absolute-numbering
resolver (updater.py, AniListUpdater.find_season_and_episode), the progress
cache (cache_manager.py) and the title-source decision of the filename
extractor (filename_parser.py, FilenameParser.parse_filename).

Machine integers of the source (Python arbitrary-precision ints) are embedded
as Int; Python `None` becomes `Option.none`; Python dicts become association
lists; a raised exception becomes an `Except`/error constructor.  Each
definition names the source function it embeds.
-/

/-- One observed outcome of a single HTTP POST attempt against the AniList
GraphQL endpoint, as distinguished by api_client.py lines 36-74: a 200
response with a decoded body, a non-200 HTTP status, a
Timeout/ConnectionError, or another RequestException. -/
inductive ApiOutcome (α : Type) where
  | ok (resp : α)
  | httpError (code : Nat)
  | netTimeout
  | netOther
deriving DecidableEq

/-- APIClient.MAX_RETRIES (api_client.py line 14). -/
def MAX_RETRIES : Nat := 2

/-- The retry loop of APIClient.make_api_request (api_client.py lines 36-74),
run against a transcript of attempt outcomes.  Returns the decoded response
(`none` on failure) together with the number of HTTP attempts consumed.
A 200 outcome returns immediately; a 5xx outcome and a timeout/connection
error are retried while retry budget remains; any other outcome stops. -/
def apiAttempts {α : Type} : Nat → List (ApiOutcome α) → Option α × Nat
  | _, [] => (none, 0)
  | _, .ok r :: _ => (some r, 1)
  | retriesLeft, .httpError c :: rest =>
      if 500 ≤ c ∧ 0 < retriesLeft then
        ((apiAttempts (retriesLeft - 1) rest).1, (apiAttempts (retriesLeft - 1) rest).2 + 1)
      else (none, 1)
  | retriesLeft, .netTimeout :: rest =>
      if 0 < retriesLeft then
        ((apiAttempts (retriesLeft - 1) rest).1, (apiAttempts (retriesLeft - 1) rest).2 + 1)
      else (none, 1)
  | _, .netOther :: _ => (none, 1)

/-- APIClient.make_api_request: the retry loop entered with the full retry
budget MAX_RETRIES.  Every request of the program — the search query and the
SaveMediaListEntry mutations alike — goes through this single function. -/
def make_api_request {α : Type} (ts : List (ApiOutcome α)) : Option α × Nat :=
  apiAttempts MAX_RETRIES ts

/-- The configuration options read by updater.py (defaults are set in
main.py; the reconciler only reads these five flags). -/
structure Options where
  SET_COMPLETED_TO_REWATCHING_ON_FIRST_EPISODE : Bool
  UPDATE_PROGRESS_WHEN_REWATCHING : Bool
  SET_TO_COMPLETED_AFTER_LAST_EPISODE_CURRENT : Bool
  SET_TO_COMPLETED_AFTER_LAST_EPISODE_REWATCHING : Bool
  ADD_ENTRY_IF_MISSING : Bool
deriving DecidableEq

/-- data_classes.AnimeInfo: the canonical working record of the reconciler. -/
structure AnimeInfo where
  anime_id : Option Int
  anime_name : Option String
  current_progress : Option Int
  total_episodes : Option Int
  file_progress : Option Int
  current_status : Option String
deriving DecidableEq

/-- The variables dictionary of one SaveMediaListEntry mutation request
(updater.py lines 326, 330, 367-369, 399): mediaId always present, progress
always present (possibly the Python None), status present only when set. -/
structure MutationVars where
  mediaId : Int
  progress : Option Int
  status : Option String
deriving DecidableEq

/-- The SaveMediaListEntry object echoed back by the service in a successful
mutation response (`response["data"]["SaveMediaListEntry"]`). -/
structure SaveResponse where
  progress : Int
  status : String
deriving DecidableEq

/-- The exceptions update_episode_count can raise (updater.py lines 281,
307-308, 340, 351, 356, 380), one constructor per raise site. -/
inductive UpdError where
  | notInList
  | addFailed
  | getEpisodeFailed
  | notNew (fileProgress currentProgress : Int)
  | notModifiable (status : Option String)
  | updateFailed
deriving DecidableEq

/-- The observable effect of one update_episode_count call: the
SaveMediaListEntry variable sets issued in order, the number of HTTP attempts
each of those requests consumed inside make_api_request, and the returned
record or raised exception. -/
structure UpdateOutcome where
  issued : List MutationVars
  attempts : List Nat
  result : Except UpdError AnimeInfo

/-- updater.py lines 342-356: the status_to_set computation of
update_episode_count, before the completion override.  REPEATING with the
rewatch-progress option proceeds as REPEATING; CURRENT/PLANNING proceeds as
CURRENT unless the observed episode is truthy and not newer than the current
progress (the NotNew raise); anything else raises NotModifiable. -/
def computeStatusToSet (opts : Options) (currentStatus : Option String)
    (currentProgress fileProgress : Option Int) : Except UpdError String :=
  if currentStatus = some "REPEATING" ∧ opts.UPDATE_PROGRESS_WHEN_REWATCHING then
    .ok "REPEATING"
  else if currentStatus = some "CURRENT" ∨ currentStatus = some "PLANNING" then
    match fileProgress, currentProgress with
    | some f, some c => if f ≠ 0 ∧ f ≤ c then .error (.notNew f c) else .ok "CURRENT"
    | _, _ => .ok "CURRENT"
  else .error (.notModifiable currentStatus)

/-- AniListUpdater.update_episode_count (updater.py lines 262-380), with the
webbrowser/print side effects dropped and the mutation transport represented
by one outcome transcript per mutation request issued (ts1 for the first
request, ts2 for the second request of the completed-to-rewatching path). -/
def update_episode_count (action : String) (opts : Options) (r : AnimeInfo)
    (ts1 ts2 : List (ApiOutcome SaveResponse)) : UpdateOutcome :=
  match r.anime_id with
  | none => ⟨[], [], .error .notInList⟩
  | some animeId =>
    if action = "launch" then ⟨[], [], .ok r⟩
    else if r.current_progress = none ∧ r.current_status = none then
      -- ADD_ENTRY_IF_MISSING path, updater.py lines 291-308 and 382-409
      if opts.ADD_ENTRY_IF_MISSING then
        let v : MutationVars := ⟨animeId, r.file_progress, some "CURRENT"⟩
        match make_api_request ts1 with
        | (some _, k) =>
            ⟨[v], [k], .ok ⟨some animeId, r.anime_name, r.file_progress,
              r.total_episodes, r.file_progress, some "CURRENT"⟩⟩
        | (none, k) => ⟨[v], [k], .error .addFailed⟩
      else ⟨[], [], .error .getEpisodeFailed⟩
    else if r.current_status = some "COMPLETED" ∧ r.file_progress = some 1 ∧
        opts.SET_COMPLETED_TO_REWATCHING_ON_FIRST_EPISODE then
      -- completed → rewatching, updater.py lines 310-340: two mutations,
      -- the response of the first is discarded
      let v1 : MutationVars := ⟨animeId, some 0, some "REPEATING"⟩
      let v2 : MutationVars := ⟨animeId, some 1, none⟩
      let k1 := (make_api_request (α := SaveResponse) ts1).2
      match make_api_request ts2 with
      | (some resp, k2) =>
          ⟨[v1, v2], [k1, k2], .ok ⟨some animeId, r.anime_name, some resp.progress,
            r.total_episodes, some 1, some "REPEATING"⟩⟩
      | (none, k2) => ⟨[v1, v2], [k1, k2], .error .updateFailed⟩
    else
      match computeStatusToSet opts r.current_status r.current_progress r.file_progress with
      | .error e => ⟨[], [], .error e⟩
      | .ok st0 =>
        -- completion override, updater.py lines 358-363
        let st := if r.file_progress = r.total_episodes ∧
            ((r.current_status = some "CURRENT" ∧
                opts.SET_TO_COMPLETED_AFTER_LAST_EPISODE_CURRENT) ∨
              (r.current_status = some "REPEATING" ∧
                opts.SET_TO_COMPLETED_AFTER_LAST_EPISODE_REWATCHING)) then
            "COMPLETED" else st0
        let v : MutationVars := ⟨animeId, r.file_progress,
          if st ≠ "" then some st else none⟩
        match make_api_request ts1 with
        | (some resp, k) =>
            ⟨[v], [k], .ok ⟨some animeId, r.anime_name, some resp.progress,
              r.total_episodes, r.file_progress, some resp.status⟩⟩
        | (none, k) => ⟨[v], [k], .error .updateFailed⟩

/-- One value of the cache dictionary (cache_manager.py lines 40-48): the
fields written by CacheManager.cache_to_file.  Time stamps are embedded as
Int. -/
structure CacheEntry where
  guessed_name : String
  anime_id : Option Int
  current_progress : Option Int
  relative_progress : String
  total_episodes : Option Int
  current_status : Option String
  ttl : Int
deriving DecidableEq

/-- Python dict read `cache.get(k)` over the association-list embedding of the
cache dictionary: the value of the first binding of the key. -/
def dictGet (k : String) : List (String × CacheEntry) → Option CacheEntry
  | [] => none
  | kv :: rest => if kv.1 = k then some kv.2 else dictGet k rest

/-- Python dict write `cache[k] = v`: the new binding shadows and replaces any
existing binding of the key. -/
def dictInsert (k : String) (v : CacheEntry) (cache : List (String × CacheEntry)) :
    List (String × CacheEntry) :=
  (k, v) :: cache.filter (fun kv => kv.1 ≠ k)

/-- CacheManager.CACHE_REFRESH_RATE (cache_manager.py line 15). -/
def cacheRefreshSeconds : Int := 24 * 60 * 60

/-- str(n) for a Python int, as used by the f-string of cache_to_file. -/
def intStr (n : Int) : String := toString n

/-- The f-string `f"{absolute_progress}->{relative_progress}"` of
cache_to_file (cache_manager.py line 44); the relative part is the
file_progress field of the record, which Python would render as "None" when
absent. -/
def renderMapping (absolute : Int) (relative : Option Int) : String :=
  intStr absolute ++ "->" ++ (match relative with | some n => intStr n | none => "None")

/-- CacheManager.cache_to_file (cache_manager.py lines 22-52): overwrite the
binding of the directory hash with a fresh entry expiring
CACHE_REFRESH_RATE seconds from now.  `dirHash` stands for
`hash_path(os.path.dirname(path))`, a deterministic function of the
containing directory. -/
def cache_to_file (cache : List (String × CacheEntry)) (dirHash guessedName : String)
    (absoluteProgress : Int) (result : AnimeInfo) (now : Int) :
    List (String × CacheEntry) :=
  dictInsert dirHash
    ⟨guessedName, result.anime_id, result.current_progress,
      renderMapping absoluteProgress result.file_progress,
      result.total_episodes, result.current_status, now + cacheRefreshSeconds⟩
    cache

/-- The purge pass of CacheManager.check_and_clean_cache (cache_manager.py
lines 84-95): every entry whose ttl has elapsed (`v.get("ttl", 0) < now`) is
popped from the cache. -/
def cleanCache (cache : List (String × CacheEntry)) (now : Int) :
    List (String × CacheEntry) :=
  cache.filter (fun kv => !decide (kv.2.ttl < now))

/-- The read of check_and_clean_cache (cache_manager.py lines 97-103): look
up the directory hash in the cleaned cache and return its entry only when the
stored guessed_name equals the queried one. -/
def cacheLookupNamed (cleaned : List (String × CacheEntry))
    (dirHash guessedName : String) : Option CacheEntry :=
  match dictGet dirHash cleaned with
  | some e => if e.guessed_name = guessedName then some e else none
  | none => none

/-- CacheManager.check_and_clean_cache (cache_manager.py lines 71-106): purge
expired entries, then read.  Returns the cleaned cache together with the read
result; `dirHash` stands for `hash_path(os.path.dirname(path))`. -/
def check_and_clean_cache (cache : List (String × CacheEntry)) (now : Int)
    (dirHash guessedName : String) :
    List (String × CacheEntry) × Option CacheEntry :=
  (cleanCache cache now, cacheLookupNamed (cleanCache cache now) dirHash guessedName)

/-- Splitting a character list at the first occurrence of the two-character
separator "->": the Python `s.split("->")` of updater.py line 104 succeeds
with two parts exactly when the separator occurs once; this helper yields the
text before and after its first occurrence. -/
def splitArrow : List Char → Option (List Char × List Char)
  | [] => none
  | '-' :: '>' :: rest => some ([], rest)
  | c :: rest =>
    match splitArrow rest with
    | some (l, r) => some (c :: l, r)
    | none => none

/-- Accumulator loop of the decimal reading of Python `int(...)`. -/
def digitsValGo : List Char → Nat → Option Nat
  | [], acc => some acc
  | c :: rest, acc =>
    if c.isDigit then digitsValGo rest (acc * 10 + (c.toNat - 48)) else none

/-- Decimal digit-string value; none on an empty or non-digit string. -/
def digitsVal : List Char → Option Nat
  | [] => none
  | cs => digitsValGo cs 0

/-- Python `int(s)` on the integer strings produced by the cache writer: an
optional leading minus sign followed by decimal digits; none models the
ValueError raised on anything else. -/
def charsToInt : List Char → Option Int
  | '-' :: rest => (digitsVal rest).map (fun n => -(n : Int))
  | cs => (digitsVal cs).map (fun n => (n : Int))

/-- The parse `left, right = entry["relative_progress"].split("->")` followed
by `int(left)`, `int(right)` of updater.py lines 104-107; none models the
exception raised on a malformed mapping string. -/
def parseMapping (s : String) : Option (Int × Int) :=
  match splitArrow s.data with
  | some (l, r) =>
    match charsToInt l, charsToInt r with
    | some a, some b => some (a, b)
    | _, _ => none
  | none => none

/-- The cached branch of AniListUpdater.handle_filename (updater.py lines
101-125): parse the relative-progress mapping, reconstruct the relative
episode as `episode - (left - right)`, and use the cache — returning the
reconstructed AnimeInfo — exactly when the reconstruction lies in
`[1, total_episodes or 0]`; `.ok none` means a fresh remote resolution is
performed instead, `.error` models the exception a malformed mapping raises. -/
def handle_filename_cached (entry : CacheEntry) (fileEpisode : Int) :
    Except String (Option AnimeInfo) :=
  match parseMapping entry.relative_progress with
  | none => .error "invalid relative_progress"
  | some (left, right) =>
    let offset := left - right
    let relativeEpisode := fileEpisode - offset
    if 1 ≤ relativeEpisode ∧ relativeEpisode ≤ entry.total_episodes.getD 0 then
      .ok (some ⟨entry.anime_id, some entry.guessed_name, entry.current_progress,
        entry.total_episodes, some relativeEpisode, entry.current_status⟩)
    else .ok none

/-- One season dict of the AniList search response, restricted to the keys
read by AniListUpdater.find_season_and_episode (updater.py lines 56-80):
`id`, `title.romaji`, `mediaListEntry.progress` (none when the entry is
absent), and `episodes`. -/
structure Season where
  id : Option Int
  titleRomaji : Option String
  mleProgress : Option Int
  episodes : Option Int
deriving DecidableEq

/-- data_classes.SeasonEpisodeInfo. -/
structure SeasonEpisodeInfo where
  season_id : Option Int
  season_title : Option String
  progress : Option Int
  episodes : Option Int
  relative_episode : Option Int
deriving DecidableEq

/-- The per-season episode count of the walk (updater.py line 69):
`season.get("episodes", 12) if season.get("episodes") else 12` — the stored
count when it is truthy (present and nonzero), else 12. -/
def seasonEpisodes (s : Season) : Int :=
  match s.episodes with
  | some n => if n ≠ 0 then n else 12
  | none => 12

/-- The accumulation loop of find_season_and_episode (updater.py lines
67-80), with the running `accumulated_episodes` made explicit. -/
def findSeasonGo (absoluteEpisode : Int) : List Season → Int → SeasonEpisodeInfo
  | [], _ => ⟨none, none, none, none, none⟩
  | s :: rest, accumulated =>
    if accumulated + seasonEpisodes s ≥ absoluteEpisode then
      ⟨s.id, s.titleRomaji, s.mleProgress, s.episodes,
        some (absoluteEpisode - accumulated)⟩
    else findSeasonGo absoluteEpisode rest (accumulated + seasonEpisodes s)

/-- AniListUpdater.find_season_and_episode (updater.py lines 56-80). -/
def find_season_and_episode (seasons : List Season) (absoluteEpisode : Int) :
    SeasonEpisodeInfo :=
  findSeasonGo absoluteEpisode seasons 0

/-- The spec-level episode count of a candidate entry: the stored count, with
12 substituted when the count is unset. -/
def specCount (s : Season) : Int := s.episodes.getD 12

/-- A season with every field unset, used as the out-of-range default of
positional access below. -/
def noSeason : Season := ⟨none, none, none, none⟩

/-- The candidate entry at a position of the walk. -/
def seasonAt (seasons : List Season) (i : Nat) : Season := seasons.getD i noSeason

/-- The episodes accumulated before a position of the walk: the sum of the
spec-level counts of the entries strictly before it. -/
def sumEpisodesBefore (seasons : List Season) (i : Nat) : Int :=
  ((seasons.take i).map specCount).sum

/-- The non-null resolution built from a matched entry and its relative
episode. -/
def matchedInfo (s : Season) (relativeEpisode : Int) : SeasonEpisodeInfo :=
  ⟨s.id, s.titleRomaji, s.mleProgress, s.episodes, some relativeEpisode⟩

/-- One guessit result, restricted to what the title-source decision of
FilenameParser.parse_filename (filename_parser.py lines 128-156) reads: the
ordered key list of the tagger output and the value of its `title` key
(meaningful only when `"title"` is among the keys).  A guess with no keys is
the falsy empty MatchesDict. -/
structure Guess where
  keys : List String
  titleVal : String
deriving DecidableEq

/-- `keys.index("episode") if "episode" in guess else 1`
(filename_parser.py line 129). -/
def episodeIdx (g : Guess) : Int :=
  if "episode" ∈ g.keys then (g.keys.indexOf "episode" : Nat) else 1

/-- `keys.index("season") if "season" in guess else -1`
(filename_parser.py line 130). -/
def seasonIdx (g : Guess) : Int :=
  if "season" ∈ g.keys then (g.keys.indexOf "season" : Nat) else -1

/-- `title_in_filename` (filename_parser.py line 131): the filename guess is
trusted for the title only when it has a title and the episode key's index is
positive and the season key's index is positive or season is absent. -/
def titleInFilename (g : Guess) : Bool :=
  "title" ∈ g.keys ∧ (0 < episodeIdx g ∧ (0 < seasonIdx g ∨ seasonIdx g = -1))

/-- `str(folder_guess.get("title", ""))`: the title value of a guess, empty
when the key is absent. -/
def getTitle (g : Guess) : String :=
  if "title" ∈ g.keys then g.titleVal else ""

/-- The folder loop of parse_filename (filename_parser.py lines 139-156) as
it determines the name: iterate over the folder guesses at depths 2 then 3
(none when the path has too few components, mirroring
`if len(path_parts) > depth - 1 else None`); a falsy (empty) guess is
skipped; a truthy guess overwrites the name with its title and the loop stops
early only when that title is empty. -/
def folderLoopName (acc : String) : List (Option Guess) → String
  | [] => acc
  | none :: rest => folderLoopName acc rest
  | some g :: rest =>
    if g.keys = [] then folderLoopName acc rest
    else
      let n := getTitle g
      if n = "" then n else folderLoopName n rest

/-- The name selection of parse_filename (filename_parser.py lines 136-156),
before the remaining/season/part suffixes are appended: the filename guess's
title when it is trusted, otherwise the outcome of the folder loop starting
from the empty name. -/
def titleSource (filenameGuess : Guess) (folderGuesses : List (Option Guess)) : String :=
  if titleInFilename filenameGuess then filenameGuess.titleVal
  else folderLoopName "" folderGuesses

lemma dictGet_mem {k : String} {v : CacheEntry} :
    ∀ {m : List (String × CacheEntry)}, dictGet k m = some v → (k, v) ∈ m := by
  intro m
  induction m with
  | nil => intro h; simp [dictGet] at h
  | cons kv rest ih =>
    intro h
    obtain ⟨a, b⟩ := kv
    by_cases hk : a = k
    · simp only [dictGet, hk, if_pos rfl] at h
      injection h with h
      subst hk
      subst h
      exact List.mem_cons_self _ _
    · simp only [dictGet, hk, if_false, if_neg hk] at h
      exact List.mem_cons_of_mem _ (ih h)

lemma mem_cleanCache {kv : String × CacheEntry} {cache : List (String × CacheEntry)}
    {now : Int} : kv ∈ cleanCache cache now ↔ kv ∈ cache ∧ ¬ kv.2.ttl < now := by
  simp [cleanCache, List.mem_filter]

/-- C7: on every cache read, an entry whose expiry time has elapsed at read
time is removed from the cache and never returned as a hit, and a non-expired
entry is returned exactly when it is the entry of the queried directory and
its stored guessed name equals the queried one. -/
theorem c7_cache_read (cache : List (String × CacheEntry)) (now : Int)
    (dirHash guessedName : String) :
    (∀ kv, kv ∈ (check_and_clean_cache cache now dirHash guessedName).1 ↔
      kv ∈ cache ∧ ¬ kv.2.ttl < now) ∧
    (∀ e, (check_and_clean_cache cache now dirHash guessedName).2 = some e →
      ¬ e.ttl < now ∧ e.guessed_name = guessedName ∧ (dirHash, e) ∈ cache) ∧
    (∀ e, (check_and_clean_cache cache now dirHash guessedName).2 = some e ↔
      dictGet dirHash (check_and_clean_cache cache now dirHash guessedName).1 = some e ∧
        e.guessed_name = guessedName) := by
  refine ⟨fun kv => mem_cleanCache, ?_, ?_⟩
  · intro e h
    simp only [check_and_clean_cache, cacheLookupNamed] at h
    cases hd : dictGet dirHash (cleanCache cache now) with
    | none => rw [hd] at h; simp at h
    | some e' =>
      rw [hd] at h
      by_cases hn : e'.guessed_name = guessedName
      · simp [hn] at h
        subst h
        have hmem := dictGet_mem hd
        have := mem_cleanCache.mp hmem
        exact ⟨this.2, hn, this.1⟩
      · simp [hn] at h
  · intro e
    simp only [check_and_clean_cache, cacheLookupNamed]
    cases hd : dictGet dirHash (cleanCache cache now) with
    | none => simp
    | some e' =>
      dsimp only
      by_cases hn : e'.guessed_name = guessedName
      · rw [if_pos hn]
        constructor
        · intro he
          injection he with he
          subst he
          exact ⟨rfl, hn⟩
        · intro he
          exact he.1
      · rw [if_neg hn]
        constructor
        · intro he
          exact absurd he (by simp)
        · intro he
          obtain ⟨h1, h2⟩ := he
          injection h1 with h1
          subst h1
          exact absurd h2 hn

/-- C9: writing a cache entry and immediately reading it back for the same
directory hash and the same guessed name returns an entry whose anime id,
progress, total episodes and status equal the written values, and whose
relative-progress mapping is the rendered "absolute->relative" pair. -/
theorem c9_cache_round_trip (cache : List (String × CacheEntry))
    (dirHash guessedName : String) (absoluteProgress now relativeEpisode : Int)
    (result : AnimeInfo)
    (hrel : result.file_progress = some relativeEpisode) :
    (check_and_clean_cache
        (cache_to_file cache dirHash guessedName absoluteProgress result now)
        now dirHash guessedName).2 =
      some ⟨guessedName, result.anime_id, result.current_progress,
        intStr absoluteProgress ++ "->" ++ intStr relativeEpisode,
        result.total_episodes, result.current_status, now + cacheRefreshSeconds⟩ := by
  have hkeep : (!decide (now + cacheRefreshSeconds < now)) = true := by
    simp [cacheRefreshSeconds]
  simp [check_and_clean_cache, cache_to_file, cleanCache, dictInsert,
    List.filter_cons, hkeep, cacheLookupNamed, dictGet, renderMapping, hrel]

/-- C6: for a cache entry whose relative-progress mapping parses as
`left->right`, the relative episode for a new file episode is reconstructed
as `episode - (left - right)`, and the cached reconstruction is used instead
of a remote search exactly when that value lies in `[1, total_episodes]`;
otherwise a fresh remote resolution is performed. -/
theorem c6_cached_reconstruction (entry : CacheEntry)
    (fileEpisode left right total : Int)
    (hmap : parseMapping entry.relative_progress = some (left, right))
    (htot : entry.total_episodes = some total) :
    (1 ≤ fileEpisode - (left - right) ∧ fileEpisode - (left - right) ≤ total →
      handle_filename_cached entry fileEpisode =
        .ok (some ⟨entry.anime_id, some entry.guessed_name, entry.current_progress,
          entry.total_episodes, some (fileEpisode - (left - right)),
          entry.current_status⟩)) ∧
    (¬(1 ≤ fileEpisode - (left - right) ∧ fileEpisode - (left - right) ≤ total) →
      handle_filename_cached entry fileEpisode = .ok none) := by
  constructor
  · intro hin
    simp [handle_filename_cached, hmap, htot, hin.1, hin.2]
  · intro hout
    simp only [handle_filename_cached, hmap, htot, Option.getD_some]
    rw [if_neg hout]

lemma apiAttempts_snd_le {α : Type} :
    ∀ (ts : List (ApiOutcome α)) (n : Nat), (apiAttempts n ts).2 ≤ n + 1 := by
  intro ts
  induction ts with
  | nil => intro n; simp [apiAttempts]
  | cons o rest ih =>
    intro n
    cases o with
    | ok r => simp [apiAttempts]
    | httpError c =>
      by_cases h : 500 ≤ c ∧ 0 < n
      · simp only [apiAttempts, if_pos h]
        have := ih (n - 1)
        omega
      · simp only [apiAttempts, if_neg h]
        omega
    | netTimeout =>
      by_cases h : 0 < n
      · simp only [apiAttempts, if_pos h]
        have := ih (n - 1)
        omega
      · simp only [apiAttempts, if_neg h]
        omega
    | netOther => simp [apiAttempts]

lemma update_single_branch (action : String) (opts : Options) (r : AnimeInfo)
    (ts1 ts2 : List (ApiOutcome SaveResponse)) (animeId : Int) (st0 : String)
    (hid : r.anime_id = some animeId) (hl : action ≠ "launch")
    (hadd : ¬(r.current_progress = none ∧ r.current_status = none))
    (hrw : ¬(r.current_status = some "COMPLETED" ∧ r.file_progress = some 1 ∧
        opts.SET_COMPLETED_TO_REWATCHING_ON_FIRST_EPISODE = true))
    (hst : computeStatusToSet opts r.current_status r.current_progress r.file_progress =
        .ok st0) :
    update_episode_count action opts r ts1 ts2 =
      (let st := if r.file_progress = r.total_episodes ∧
          ((r.current_status = some "CURRENT" ∧
              opts.SET_TO_COMPLETED_AFTER_LAST_EPISODE_CURRENT = true) ∨
            (r.current_status = some "REPEATING" ∧
              opts.SET_TO_COMPLETED_AFTER_LAST_EPISODE_REWATCHING = true)) then
          "COMPLETED" else st0
      let v : MutationVars := ⟨animeId, r.file_progress, if st ≠ "" then some st else none⟩
      match make_api_request ts1 with
      | (some resp, k) =>
          ⟨[v], [k], .ok ⟨some animeId, r.anime_name, some resp.progress,
            r.total_episodes, r.file_progress, some resp.status⟩⟩
      | (none, k) => ⟨[v], [k], .error .updateFailed⟩) := by
  unfold update_episode_count
  rw [hid]
  dsimp only
  rw [if_neg hl, if_neg hadd, if_neg hrw, hst]

lemma update_status_error (action : String) (opts : Options) (r : AnimeInfo)
    (ts1 ts2 : List (ApiOutcome SaveResponse)) (animeId : Int) (e : UpdError)
    (hid : r.anime_id = some animeId) (hl : action ≠ "launch")
    (hadd : ¬(r.current_progress = none ∧ r.current_status = none))
    (hrw : ¬(r.current_status = some "COMPLETED" ∧ r.file_progress = some 1 ∧
        opts.SET_COMPLETED_TO_REWATCHING_ON_FIRST_EPISODE = true))
    (hst : computeStatusToSet opts r.current_status r.current_progress r.file_progress =
        .error e) :
    update_episode_count action opts r ts1 ts2 = ⟨[], [], .error e⟩ := by
  unfold update_episode_count
  rw [hid]
  dsimp only
  rw [if_neg hl, if_neg hadd, if_neg hrw, hst]

/-- C1 counterexample: a SaveMediaListEntry mutation issued by the reconciler
whose first HTTP attempt fails with a 503 is retried by the shared transport
loop — two attempts are made and the mutation then succeeds — refuting the
claim that at most one HTTP request attempt is made per mutation and that a
5xx-failed mutation is surfaced as a hard failure. -/
theorem c1_counterexample :
    (update_episode_count "update" ⟨false, true, false, true, false⟩
        ⟨some 7, some "X", some 4, some 12, some 5, some "CURRENT"⟩
        [.httpError 503, .ok ⟨5, "CURRENT"⟩] []).attempts = [2] ∧
    (update_episode_count "update" ⟨false, true, false, true, false⟩
        ⟨some 7, some "X", some 4, some 12, some 5, some "CURRENT"⟩
        [.httpError 503, .ok ⟨5, "CURRENT"⟩] []).result =
      .ok ⟨some 7, some "X", some 5, some 12, some 5, some "CURRENT"⟩ ∧
    ¬ (∀ k ∈ (update_episode_count "update" ⟨false, true, false, true, false⟩
        ⟨some 7, some "X", some 4, some 12, some 5, some "CURRENT"⟩
        [.httpError 503, .ok ⟨5, "CURRENT"⟩] []).attempts, k ≤ 1) :=
  ⟨by decide, by rfl, by decide⟩

/-- C1 (amended): every mutation issued by the reconciler goes through the
same transport retry policy as the search query — at most MAX_RETRIES + 1
HTTP attempts are made per request — and a mutation whose transport result is
still a failure after the retry loop is surfaced as a hard failure. -/
theorem c1_mutation_retry_policy (action : String) (opts : Options) (r : AnimeInfo)
    (ts1 ts2 : List (ApiOutcome SaveResponse)) :
    (∀ k ∈ (update_episode_count action opts r ts1 ts2).attempts,
      k ≤ MAX_RETRIES + 1) ∧
    (∀ st, r.anime_id ≠ none → action ≠ "launch" →
      ¬(r.current_progress = none ∧ r.current_status = none) →
      ¬(r.current_status = some "COMPLETED" ∧ r.file_progress = some 1 ∧
          opts.SET_COMPLETED_TO_REWATCHING_ON_FIRST_EPISODE = true) →
      computeStatusToSet opts r.current_status r.current_progress r.file_progress =
        .ok st →
      (make_api_request ts1).1 = none →
      (update_episode_count action opts r ts1 ts2).result = .error .updateFailed) := by
  have hb1 : (make_api_request (α := SaveResponse) ts1).2 ≤ MAX_RETRIES + 1 :=
    apiAttempts_snd_le ts1 MAX_RETRIES
  have hb2 : (make_api_request (α := SaveResponse) ts2).2 ≤ MAX_RETRIES + 1 :=
    apiAttempts_snd_le ts2 MAX_RETRIES
  constructor
  · intro k hk
    unfold update_episode_count at hk
    repeat' split at hk
    all_goals simp_all
    all_goals rcases hk with hk | hk <;> omega
  · intro st hid hl hadd hrw hst hnone
    cases hid' : r.anime_id with
    | none => exact absurd hid' hid
    | some animeId =>
      have heq := update_single_branch action opts r ts1 ts2 animeId st hid' hl hadd hrw hst
      rw [heq]
      rcases hmr : make_api_request ts1 with ⟨res, k⟩
      rw [hmr] at hnone
      simp only at hnone
      subst hnone
      simp [hmr]

/-- C1 witness: a mutation whose three transport attempts all fail with 503
is surfaced as the update-failed hard failure. -/
theorem c1_mutation_retry_policy_witness :
    (update_episode_count "update" ⟨false, true, false, true, false⟩
        ⟨some 1, some "A", some 0, some 12, some 2, some "CURRENT"⟩
        [.httpError 503, .httpError 503, .httpError 503] []).result =
      .error .updateFailed :=
  (c1_mutation_retry_policy "update" ⟨false, true, false, true, false⟩
      ⟨some 1, some "A", some 0, some 12, some 2, some "CURRENT"⟩
      [.httpError 503, .httpError 503, .httpError 503] []).2
    "CURRENT" (by decide) (by decide) (by decide) (by decide) rfl (by decide)

/-- C2 counterexample: with currentStatus PLANNING, currentProgress 11,
totalEpisodes 12, observedEpisode 12 and the complete-on-last-episode option
for CURRENT enabled, the committed mutation carries status CURRENT, not
COMPLETED — the completion override does not apply to the PLANNING side of
the CURRENT/PLANNING branch. -/
theorem c2_counterexample :
    (update_episode_count "update" ⟨false, true, true, true, false⟩
        ⟨some 7, some "X", some 11, some 12, some 12, some "PLANNING"⟩
        [.ok ⟨12, "CURRENT"⟩] []).issued = [⟨7, some 12, some "CURRENT"⟩] ∧
    ∀ m ∈ (update_episode_count "update" ⟨false, true, true, true, false⟩
        ⟨some 7, some "X", some 11, some 12, some 12, some "PLANNING"⟩
        [.ok ⟨12, "CURRENT"⟩] []).issued, m.status ≠ some "COMPLETED" := by
  decide

/-- C2 (amended): the completion override fires only for the literal current
statuses CURRENT and REPEATING.  When the observed episode equals the total
and the current status is CURRENT with its flag (and the episode is newer
than the progress), or REPEATING with the rewatch-progress option and its
flag, the committed mutation carries status COMPLETED and progress equal to
the total episode count. -/
theorem c2_completion_override (opts : Options) (r : AnimeInfo)
    (ts1 ts2 : List (ApiOutcome SaveResponse)) (animeId n : Int)
    (hid : r.anime_id = some animeId)
    (hfp : r.file_progress = some n)
    (htot : r.total_episodes = some n)
    (hbranch :
      (r.current_status = some "CURRENT" ∧
          opts.SET_TO_COMPLETED_AFTER_LAST_EPISODE_CURRENT = true ∧
          ∃ c, r.current_progress = some c ∧ c < n) ∨
        (r.current_status = some "REPEATING" ∧
          opts.UPDATE_PROGRESS_WHEN_REWATCHING = true ∧
          opts.SET_TO_COMPLETED_AFTER_LAST_EPISODE_REWATCHING = true)) :
    (update_episode_count "update" opts r ts1 ts2).issued =
      [⟨animeId, some n, some "COMPLETED"⟩] := by
  rcases hbranch with ⟨hcs, hflag, c, hcp, hlt⟩ | ⟨hcs, hupd, hflag⟩
  · have hst : computeStatusToSet opts r.current_status r.current_progress
        r.file_progress = .ok "CURRENT" := by
      unfold computeStatusToSet
      rw [if_neg (by simp [hcs]), if_pos (Or.inl hcs), hfp, hcp]
      simp only
      rw [if_neg (by omega)]
    have heq := update_single_branch "update" opts r ts1 ts2 animeId "CURRENT"
      hid (by decide) (by simp [hcs]) (by simp [hcs]) hst
    rw [hcs, hfp, htot, hflag] at heq
    rcases hmr : make_api_request ts1 with ⟨res, k⟩
    rw [hmr] at heq
    cases res <;> simp at heq <;> rw [heq]
  · have hst : computeStatusToSet opts r.current_status r.current_progress
        r.file_progress = .ok "REPEATING" := by
      unfold computeStatusToSet
      rw [if_pos ⟨hcs, hupd⟩]
    have heq := update_single_branch "update" opts r ts1 ts2 animeId "REPEATING"
      hid (by decide) (by simp [hcs]) (by simp [hcs]) hst
    rw [hcs, hfp, htot, hflag] at heq
    rcases hmr : make_api_request ts1 with ⟨res, k⟩
    rw [hmr] at heq
    cases res <;> simp at heq <;> rw [heq]

/-- C2 witness: the spec scenario on the CURRENT side — progress 11 of 12,
observed episode 12, flag enabled — commits status COMPLETED, progress 12. -/
theorem c2_completion_override_witness :
    (update_episode_count "update" ⟨false, true, true, true, false⟩
        ⟨some 7, some "X", some 11, some 12, some 12, some "CURRENT"⟩
        [.ok ⟨12, "COMPLETED"⟩] []).issued = [⟨7, some 12, some "COMPLETED"⟩] :=
  c2_completion_override ⟨false, true, true, true, false⟩
    ⟨some 7, some "X", some 11, some 12, some 12, some "CURRENT"⟩
    [.ok ⟨12, "COMPLETED"⟩] [] 7 12 rfl rfl rfl
    (Or.inl ⟨rfl, rfl, 11, rfl, by decide⟩)

/-- C3: in the CURRENT/PLANNING branch with a non-null current progress and
an observed episode of at least 1, the reconciler fails with the NotNew error
exactly when the observed episode is not greater than the current progress,
and when it is greater the target status is set to CURRENT. -/
theorem c3_not_new (opts : Options) (r : AnimeInfo)
    (ts1 ts2 : List (ApiOutcome SaveResponse)) (animeId f c : Int)
    (hid : r.anime_id = some animeId)
    (hcs : r.current_status = some "CURRENT" ∨ r.current_status = some "PLANNING")
    (hcp : r.current_progress = some c)
    (hfp : r.file_progress = some f)
    (hf1 : 1 ≤ f) :
    ((update_episode_count "update" opts r ts1 ts2).result =
        .error (.notNew f c) ↔ f ≤ c) ∧
    (c < f → computeStatusToSet opts r.current_status r.current_progress
        r.file_progress = .ok "CURRENT") := by
  have hnrep : r.current_status ≠ some "REPEATING" := by
    rcases hcs with h | h <;> rw [h] <;> decide
  have hncom : r.current_status ≠ some "COMPLETED" := by
    rcases hcs with h | h <;> rw [h] <;> decide
  have hstdef : computeStatusToSet opts r.current_status r.current_progress
      r.file_progress =
      if f ≠ 0 ∧ f ≤ c then .error (.notNew f c) else .ok "CURRENT" := by
    unfold computeStatusToSet
    rw [if_neg (fun hh => hnrep hh.1), if_pos hcs, hfp, hcp]
  by_cases hle : f ≤ c
  · have herr : computeStatusToSet opts r.current_status r.current_progress
        r.file_progress = .error (.notNew f c) := by
      rw [hstdef, if_pos ⟨by omega, hle⟩]
    have hupd := update_status_error "update" opts r ts1 ts2 animeId (.notNew f c)
      hid (by decide) (by simp [hcp]) (fun hh => hncom hh.1) herr
    refine ⟨⟨fun _ => hle, fun _ => by rw [hupd]⟩, fun hlt => by omega⟩
  · have hok : computeStatusToSet opts r.current_status r.current_progress
        r.file_progress = .ok "CURRENT" := by
      rw [hstdef, if_neg (fun hh => hle hh.2)]
    have heq := update_single_branch "update" opts r ts1 ts2 animeId "CURRENT"
      hid (by decide) (by simp [hcp]) (fun hh => hncom hh.1) hok
    refine ⟨⟨fun habs => ?_, fun hle' => absurd hle' hle⟩, fun _ => hok⟩
    rw [heq] at habs
    rcases hmr : make_api_request ts1 with ⟨res, k⟩
    rw [hmr] at habs
    cases res <;> simp at habs

/-- C3 witness: the spec scenario — current progress 5, observed episode 5 —
fails NotNew. -/
theorem c3_not_new_witness :
    (update_episode_count "update" ⟨false, true, false, true, false⟩
        ⟨some 7, some "X", some 5, some 12, some 5, some "CURRENT"⟩
        [.ok ⟨5, "CURRENT"⟩] []).result = .error (.notNew 5 5) :=
  ((c3_not_new ⟨false, true, false, true, false⟩
      ⟨some 7, some "X", some 5, some 12, some 5, some "CURRENT"⟩
      [.ok ⟨5, "CURRENT"⟩] [] 7 5 5 rfl (Or.inl rfl) rfl rfl
      (by decide)).1).mpr (by decide)

/-- C4: with currentStatus COMPLETED, observedEpisode 1 and the
reset-completed-to-rewatching option enabled, exactly two mutations are
issued in order — first status REPEATING with progress 0, then progress 1 —
and on a successful second mutation the returned record has status REPEATING
and the progress echoed by the second mutation's response. -/
theorem c4_rewatch_two_mutations (opts : Options) (r : AnimeInfo)
    (ts1 ts2 : List (ApiOutcome SaveResponse)) (animeId : Int)
    (hid : r.anime_id = some animeId)
    (hcs : r.current_status = some "COMPLETED")
    (hfp : r.file_progress = some 1)
    (hflag : opts.SET_COMPLETED_TO_REWATCHING_ON_FIRST_EPISODE = true) :
    (update_episode_count "update" opts r ts1 ts2).issued =
        [⟨animeId, some 0, some "REPEATING"⟩, ⟨animeId, some 1, none⟩] ∧
    ∀ resp, (make_api_request ts2).1 = some resp →
      (update_episode_count "update" opts r ts1 ts2).result =
        .ok ⟨some animeId, r.anime_name, some resp.progress, r.total_episodes,
          some 1, some "REPEATING"⟩ := by
  unfold update_episode_count
  rw [hid]
  dsimp only
  rw [if_neg (by decide), if_neg (by simp [hcs]), if_pos ⟨hcs, hfp, hflag⟩]
  constructor
  · rcases hmr : make_api_request ts2 with ⟨res, k2⟩
    cases res <;> simp [hmr]
  · intro resp hresp
    rcases hmr : make_api_request ts2 with ⟨res, k2⟩
    rw [hmr] at hresp
    simp only at hresp
    subst hresp
    simp [hmr]

/-- C4 witness: the spec scenario issues the two mutations and lands on
status REPEATING with progress 1. -/
theorem c4_rewatch_two_mutations_witness :
    (update_episode_count "update" ⟨true, true, false, true, false⟩
        ⟨some 7, some "X", some 12, some 12, some 1, some "COMPLETED"⟩
        [.ok ⟨0, "REPEATING"⟩] [.ok ⟨1, "REPEATING"⟩]).issued =
        [⟨7, some 0, some "REPEATING"⟩, ⟨7, some 1, none⟩] ∧
    (update_episode_count "update" ⟨true, true, false, true, false⟩
        ⟨some 7, some "X", some 12, some 12, some 1, some "COMPLETED"⟩
        [.ok ⟨0, "REPEATING"⟩] [.ok ⟨1, "REPEATING"⟩]).result =
      .ok ⟨some 7, some "X", some 1, some 12, some 1, some "REPEATING"⟩ :=
  ⟨(c4_rewatch_two_mutations ⟨true, true, false, true, false⟩
      ⟨some 7, some "X", some 12, some 12, some 1, some "COMPLETED"⟩
      [.ok ⟨0, "REPEATING"⟩] [.ok ⟨1, "REPEATING"⟩] 7 rfl rfl rfl rfl).1,
    (c4_rewatch_two_mutations ⟨true, true, false, true, false⟩
      ⟨some 7, some "X", some 12, some 12, some 1, some "COMPLETED"⟩
      [.ok ⟨0, "REPEATING"⟩] [.ok ⟨1, "REPEATING"⟩] 7 rfl rfl rfl rfl).2
      ⟨1, "REPEATING"⟩ rfl⟩

lemma sumEpisodesBefore_zero (seasons : List Season) :
    sumEpisodesBefore seasons 0 = 0 := rfl

lemma sumEpisodesBefore_cons (s : Season) (rest : List Season) (i : Nat) :
    sumEpisodesBefore (s :: rest) (i + 1) = specCount s + sumEpisodesBefore rest i := by
  simp [sumEpisodesBefore]

lemma seasonAt_cons_succ (s : Season) (rest : List Season) (i : Nat) :
    seasonAt (s :: rest) (i + 1) = seasonAt rest i := rfl

lemma seasonAt_cons_zero (s : Season) (rest : List Season) :
    seasonAt (s :: rest) 0 = s := rfl

lemma seasonEpisodes_eq_specCount {s : Season}
    (hs : ∀ n, s.episodes = some n → 0 < n) : seasonEpisodes s = specCount s := by
  cases h : s.episodes with
  | none => simp [seasonEpisodes, specCount, h]
  | some m =>
    have hm := hs m h
    simp only [seasonEpisodes, specCount, h, Option.getD_some]
    rw [if_pos (by omega)]

lemma findSeasonGo_spec (absoluteEpisode : Int) :
    ∀ (seasons : List Season) (acc : Int),
      (∀ s ∈ seasons, ∀ n, s.episodes = some n → 0 < n) →
      ((∀ j, j < seasons.length →
          (∀ i, i < j → acc + sumEpisodesBefore seasons i +
            specCount (seasonAt seasons i) < absoluteEpisode) →
          absoluteEpisode ≤ acc + sumEpisodesBefore seasons j +
            specCount (seasonAt seasons j) →
          findSeasonGo absoluteEpisode seasons acc =
            matchedInfo (seasonAt seasons j)
              (absoluteEpisode - (acc + sumEpisodesBefore seasons j))) ∧
        ((∀ j, j < seasons.length →
            acc + sumEpisodesBefore seasons j +
              specCount (seasonAt seasons j) < absoluteEpisode) →
          findSeasonGo absoluteEpisode seasons acc = ⟨none, none, none, none, none⟩)) := by
  intro seasons
  induction seasons with
  | nil =>
    intro acc _
    constructor
    · intro j hj
      simp at hj
    · intro _
      rfl
  | cons s rest ih =>
    intro acc hpos
    have he : seasonEpisodes s = specCount s :=
      seasonEpisodes_eq_specCount (hpos s (List.mem_cons_self s rest))
    by_cases hge : absoluteEpisode ≤ acc + seasonEpisodes s
    · have hfind : findSeasonGo absoluteEpisode (s :: rest) acc =
          matchedInfo s (absoluteEpisode - acc) := by
        simp only [findSeasonGo]
        rw [if_pos (by omega)]
        rfl
      constructor
      · intro j hj hfirst hmatch
        match j with
        | 0 =>
          rw [hfind, seasonAt_cons_zero, sumEpisodesBefore_zero, add_zero]
        | j' + 1 =>
          exfalso
          have h0 := hfirst 0 (Nat.succ_pos j')
          rw [sumEpisodesBefore_zero, seasonAt_cons_zero] at h0
          omega
      · intro hall
        exfalso
        have h0 := hall 0 (by simp)
        rw [sumEpisodesBefore_zero, seasonAt_cons_zero] at h0
        omega
    · have hlt : acc + seasonEpisodes s < absoluteEpisode := by omega
      have hfind : findSeasonGo absoluteEpisode (s :: rest) acc =
          findSeasonGo absoluteEpisode rest (acc + seasonEpisodes s) := by
        simp only [findSeasonGo]
        rw [if_neg (by omega)]
      have hposr : ∀ t ∈ rest, ∀ n, t.episodes = some n → 0 < n :=
        fun t ht => hpos t (List.mem_cons_of_mem s ht)
      obtain ⟨ih1, ih2⟩ := ih (acc + seasonEpisodes s) hposr
      constructor
      · intro j hj hfirst hmatch
        match j with
        | 0 =>
          exfalso
          rw [sumEpisodesBefore_zero, seasonAt_cons_zero] at hmatch
          omega
        | j' + 1 =>
          rw [sumEpisodesBefore_cons, seasonAt_cons_succ] at hmatch
          have hfirst' : ∀ i, i < j' →
              (acc + seasonEpisodes s) + sumEpisodesBefore rest i +
                specCount (seasonAt rest i) < absoluteEpisode := by
            intro i hi
            have := hfirst (i + 1) (by omega)
            rw [sumEpisodesBefore_cons, seasonAt_cons_succ] at this
            omega
          have hconc := ih1 j' (by simpa using hj) hfirst' (by omega)
          rw [hfind, hconc, sumEpisodesBefore_cons, seasonAt_cons_succ]
          congr 1
          omega
      · intro hall
        rw [hfind]
        apply ih2
        intro j hj
        have := hall (j + 1) (by simpa using hj)
        rw [sumEpisodesBefore_cons, seasonAt_cons_succ] at this
        omega

/-- C5: the absolute-numbering resolver returns the first entry at which the
running sum of episode counts (12 substituted for an unset count) reaches the
absolute episode, with relative episode equal to the absolute episode minus
the episodes accumulated before that entry, and returns the all-null
resolution when no entry qualifies (in particular on the empty list); episode
counts are assumed positive-or-absent, as AniList episode counts are. -/
theorem c5_resolver_first_match (seasons : List Season) (absoluteEpisode : Int)
    (hpos : ∀ s ∈ seasons, ∀ n, s.episodes = some n → 0 < n) :
    (∀ j, j < seasons.length →
      (∀ i, i < j → sumEpisodesBefore seasons i +
        specCount (seasonAt seasons i) < absoluteEpisode) →
      absoluteEpisode ≤ sumEpisodesBefore seasons j +
        specCount (seasonAt seasons j) →
      find_season_and_episode seasons absoluteEpisode =
        matchedInfo (seasonAt seasons j)
          (absoluteEpisode - sumEpisodesBefore seasons j)) ∧
    ((∀ j, j < seasons.length →
        sumEpisodesBefore seasons j +
          specCount (seasonAt seasons j) < absoluteEpisode) →
      find_season_and_episode seasons absoluteEpisode =
        ⟨none, none, none, none, none⟩) := by
  obtain ⟨h1, h2⟩ := findSeasonGo_spec absoluteEpisode seasons 0 hpos
  constructor
  · intro j hj hfirst hmatch
    have hconc := h1 j hj (fun i hi => by have := hfirst i hi; omega) (by omega)
    show findSeasonGo absoluteEpisode seasons 0 = _
    rw [hconc]
    congr 1
    omega
  · intro hall
    exact h2 (fun j hj => by have := hall j hj; omega)

/-- C5 witness: the spec scenario — entries of 12 and 13 episodes, absolute
episode 15 — resolves to the second entry at relative episode 3. -/
theorem c5_resolver_first_match_witness :
    find_season_and_episode
        [⟨some 1, some "A", none, some 12⟩, ⟨some 2, some "B", none, some 13⟩] 15 =
      ⟨some 2, some "B", none, some 13, some 3⟩ := by
  have h := (c5_resolver_first_match
      [⟨some 1, some "A", none, some 12⟩, ⟨some 2, some "B", none, some 13⟩] 15
      (by decide)).1 1 (by decide)
      (by intro i hi
          have hi0 : i = 0 := by omega
          subst hi0
          decide)
      (by decide)
  rw [h]
  decide

lemma findSeasonGo_range (absoluteEpisode : Int) :
    ∀ (seasons : List Season) (acc : Int),
      (∀ s ∈ seasons, ∀ n, s.episodes = some n → 0 < n) →
      acc < absoluteEpisode →
      ∀ rel, (findSeasonGo absoluteEpisode seasons acc).relative_episode = some rel →
        1 ≤ rel ∧
          rel ≤ (findSeasonGo absoluteEpisode seasons acc).episodes.getD 12 := by
  intro seasons
  induction seasons with
  | nil =>
    intro acc _ _ rel h
    simp [findSeasonGo] at h
  | cons s rest ih =>
    intro acc hpos hacc rel h
    have he : seasonEpisodes s = specCount s :=
      seasonEpisodes_eq_specCount (hpos s (List.mem_cons_self s rest))
    by_cases hge : acc + seasonEpisodes s ≥ absoluteEpisode
    · rw [show findSeasonGo absoluteEpisode (s :: rest) acc =
          ⟨s.id, s.titleRomaji, s.mleProgress, s.episodes,
            some (absoluteEpisode - acc)⟩ from by
        simp only [findSeasonGo]; rw [if_pos hge]] at h ⊢
      simp only at h
      injection h with h
      subst h
      refine ⟨by omega, ?_⟩
      have : specCount s = s.episodes.getD 12 := rfl
      simp only
      omega
    · rw [show findSeasonGo absoluteEpisode (s :: rest) acc =
          findSeasonGo absoluteEpisode rest (acc + seasonEpisodes s) from by
        simp only [findSeasonGo]; rw [if_neg hge]] at h ⊢
      exact ih (acc + seasonEpisodes s)
        (fun t ht => hpos t (List.mem_cons_of_mem s ht)) (by omega) rel h

/-- C10: for an absolute episode of at least 1 (and positive-or-absent
episode counts), whenever the resolver returns a non-null resolution, the
relative episode lies between 1 and the matched entry's episode count with 12
substituted for an unset count. -/
theorem c10_resolver_range (seasons : List Season) (absoluteEpisode : Int)
    (h1 : 1 ≤ absoluteEpisode)
    (hpos : ∀ s ∈ seasons, ∀ n, s.episodes = some n → 0 < n) :
    ∀ rel, (find_season_and_episode seasons absoluteEpisode).relative_episode =
        some rel →
      1 ≤ rel ∧
        rel ≤ (find_season_and_episode seasons absoluteEpisode).episodes.getD 12 :=
  findSeasonGo_range absoluteEpisode seasons 0 hpos (by omega)

/-- C10 witness: at the concrete resolution of absolute episode 15 against
entries of 12 and 13 episodes, the relative episode 3 lies within the matched
entry's range. -/
theorem c10_resolver_range_witness :
    1 ≤ (3 : Int) ∧ (3 : Int) ≤ (find_season_and_episode
        [⟨some 1, some "A", none, some 12⟩, ⟨some 2, some "B", none, some 13⟩]
        15).episodes.getD 12 :=
  c10_resolver_range
    [⟨some 1, some "A", none, some 12⟩, ⟨some 2, some "B", none, some 13⟩]
    15 (by decide) (by decide) 3 (by decide)

/-- C8: when the filename guess has a title and an episode key, the title is
taken from the filename exactly when the episode key's position index in the
tagger output is positive and the season key's index is positive or season is
absent; a trusted filename never consults the folder guesses, and an
untrusted one takes the name from the folder loop over the depth-2 and
depth-3 guesses instead. -/
theorem c8_title_source (g : Guess)
    (htitle : "title" ∈ g.keys) (hep : "episode" ∈ g.keys) :
    (titleInFilename g = true ↔
      0 < g.keys.indexOf "episode" ∧
        (0 < g.keys.indexOf "season" ∨ "season" ∉ g.keys)) ∧
    (titleInFilename g = true →
      ∀ folderGuesses, titleSource g folderGuesses = g.titleVal) ∧
    (titleInFilename g = false →
      ∀ folderGuesses, titleSource g folderGuesses = folderLoopName "" folderGuesses) := by
  have hbool : titleInFilename g = true ↔
      ("title" ∈ g.keys ∧ (0 < episodeIdx g ∧ (0 < seasonIdx g ∨ seasonIdx g = -1))) := by
    simp [titleInFilename]
  refine ⟨?_, ?_, ?_⟩
  · rw [hbool]
    unfold episodeIdx seasonIdx
    rw [if_pos hep]
    by_cases hs : "season" ∈ g.keys
    · rw [if_pos hs]
      constructor
      · rintro ⟨-, h1, h2 | h2⟩
        · exact ⟨by exact_mod_cast h1, Or.inl (by exact_mod_cast h2)⟩
        · exfalso
          omega
      · rintro ⟨h1, h2 | h2⟩
        · exact ⟨htitle, by exact_mod_cast h1, Or.inl (by exact_mod_cast h2)⟩
        · exact absurd hs h2
    · rw [if_neg hs]
      constructor
      · rintro ⟨-, h1, -⟩
        exact ⟨by exact_mod_cast h1, Or.inr hs⟩
      · rintro ⟨h1, -⟩
        exact ⟨htitle, by exact_mod_cast h1, Or.inr rfl⟩
  · intro ht folderGuesses
    simp [titleSource, ht]
  · intro hf folderGuesses
    simp [titleSource, hf]

/-- C8 witness: a filename guess ordered release-group, title, season,
episode is trusted and yields its own title whatever the folder guesses
hold. -/
theorem c8_title_source_witness :
    titleSource ⟨["release_group", "title", "season", "episode"], "Show"⟩
      [some ⟨["title", "season"], "Folder"⟩, none] = "Show" :=
  (c8_title_source ⟨["release_group", "title", "season", "episode"], "Show"⟩
      (by decide) (by decide)).2.1 (by decide)
    [some ⟨["title", "season"], "Folder"⟩, none]

/-- C6 witness: the spec scenario — mapping "19->7", new absolute episode 20,
24 total episodes — reconstructs relative episode 8 from the cache. -/
theorem c6_cached_reconstruction_witness :
    handle_filename_cached
        ⟨"Show", some 5, some 7, "19->7", some 24, some "CURRENT", 0⟩ 20 =
      .ok (some ⟨some 5, some "Show", some 7, some 24, some 8, some "CURRENT"⟩) := by
  have h := (c6_cached_reconstruction
      ⟨"Show", some 5, some 7, "19->7", some 24, some "CURRENT", 0⟩
      20 19 7 24 (by decide) rfl).1 (by decide)
  have harith : (20 : Int) - (19 - 7) = 8 := by norm_num
  rw [harith] at h
  exact h

/-- C7 witness: at a concrete cache, the hit returned for the queried
directory is unexpired, name-matching and comes from the original cache. -/
theorem c7_cache_read_witness :
    ¬((⟨"A", some 1, some 2, "3->3", some 12, some "CURRENT", 100⟩ : CacheEntry).ttl
        < 60) ∧
      (⟨"A", some 1, some 2, "3->3", some 12, some "CURRENT", 100⟩ :
        CacheEntry).guessed_name = "A" ∧
      ("h1", (⟨"A", some 1, some 2, "3->3", some 12, some "CURRENT", 100⟩ : CacheEntry)) ∈
        [("h1", (⟨"A", some 1, some 2, "3->3", some 12, some "CURRENT", 100⟩ : CacheEntry)),
          ("h2", (⟨"B", some 2, some 3, "4->4", some 12, some "CURRENT", 50⟩ : CacheEntry))] :=
  (c7_cache_read
      [("h1", ⟨"A", some 1, some 2, "3->3", some 12, some "CURRENT", 100⟩),
        ("h2", ⟨"B", some 2, some 3, "4->4", some 12, some "CURRENT", 50⟩)]
      60 "h1" "A").2.1
    ⟨"A", some 1, some 2, "3->3", some 12, some "CURRENT", 100⟩ (by decide)

/-- C9 witness: a concrete write followed by an immediate read returns the
written fields with the mapping string "19->7". -/
theorem c9_cache_round_trip_witness :
    (check_and_clean_cache
        (cache_to_file [] "h1" "Show" 19
          ⟨some 5, some "Show", some 7, some 24, some 7, some "CURRENT"⟩ 1000)
        1000 "h1" "Show").2 =
      some ⟨"Show", some 5, some 7, "19->7", some 24, some "CURRENT",
        1000 + cacheRefreshSeconds⟩ := by
  have h := c9_cache_round_trip [] "h1" "Show" 19 1000 7
    ⟨some 5, some "Show", some 7, some 24, some 7, some "CURRENT"⟩ rfl
  rw [h]
  decide
